import Mathlib

/-!
Verification development for the temporal-framework decision engine.

Shallow embedding of the core modules:
  - core/tuples.py        (TimeWindow, TemporalContext, EnhancedContextualIntegrityTuple)
  - core/evaluator.py     (first-match rule evaluation)
  - core/enricher.py      (TTL cache, failure tracker, Graphiti context builder)
  - core/policy_engine.py (weighted rule scorer and decision composer)

Conventions of the embedding:
  - timestamps are integers (seconds); Python datetime arithmetic maps to
    integer subtraction, and ISO strings in rules are modeled as parsed instants;
  - Python float scores are modeled as rationals (all literals involved are
    exact decimal fractions);
  - Python dict keys that may be absent are modeled as Option fields
    (none = key absent); Python truthiness of strings is non-emptiness;
  - external collaborators (the legal-hold lookup, the four Graphiti
    relationship queries, the rule source, wall-clock time) are parameters
    of the embedded functions, mirroring the call boundaries of the code;
  - graph storage metadata (node_id, node_type, created_at, updated_at),
    which is generated from uuids and the wall clock and never read by the
    decision logic, is omitted from the structures.
-/

namespace TemporalFramework

/-- Truthiness of an optional Python string: present and non-empty. -/
def opt_str_truthy : Option String → Bool
  | some s => s != ""
  | none => false

/-- TimeWindow from core/tuples.py: optional start and end instants plus
window metadata. -/
structure TimeWindow where
  start : Option Int := none
  finish : Option Int := none
  window_type : String := "access_window"
  description : Option String := none
deriving DecidableEq, Repr

/-- TemporalContext from core/tuples.py. The Python class is a plain dataclass:
it has no emergency_authorization_id field and runs no validation on
construction. The fields data_domain and inherited_permissions are not
dataclass fields either; they are attached dynamically (setattr) by the
enricher and the policy engine, so they appear here as always-present
optional/defaulted fields (none / [] = attribute never attached). -/
structure TemporalContext where
  incident_id : Option String := none
  service_id : Option String := none
  user_id : Option String := none
  access_window_id : Option String := none
  timestamp : Int
  timezone : String := "UTC"
  business_hours : Bool := false
  emergency_override : Bool := false
  data_freshness_seconds : Option Int := none
  situation : Option String := some "NORMAL"
  temporal_role : Option String := none
  event_correlation : Option String := none
  access_window : Option TimeWindow := none
  data_domain : Option String := none
  inherited_permissions : List String := []
deriving DecidableEq, Repr

/-- Constructing a TemporalContext as the dataclass does: the only arguments
relevant to claim C1 are shown; every other field takes its declared default.
There is no validation code anywhere in the class, so construction is a total
function: it cannot fail. -/
def TemporalContext.construct (emergency_override : Bool) (timestamp : Int) :
    TemporalContext :=
  { timestamp := timestamp, emergency_override := emergency_override }

/-- EnhancedContextualIntegrityTuple from core/tuples.py. -/
structure EnhancedContextualIntegrityTuple where
  data_type : String
  data_subject : String
  data_sender : String
  data_recipient : String
  transmission_principle : String
  temporal_context : TemporalContext
deriving DecidableEq, Repr

/-! ## Rule model

Rules are dictionaries loaded from YAML / Neo4j / Graphiti. A tuple-field
matcher value can be the wildcard "*", the JSON null, a single string, or a
list of strings. Absent keys are `none` at the structure level. -/

/-- A declared matcher value for one rule field. -/
inductive MatchVal where
  | star : MatchVal
  | null : MatchVal
  | str : String → MatchVal
  | strs : List String → MatchVal
deriving DecidableEq, Repr

/-- Declared access window of a rule (ISO strings modeled as instants;
absent bounds are none). -/
structure RuleWindow where
  start : Option Int := none
  finish : Option Int := none
deriving DecidableEq, Repr

/-- The tuples section of a rule: each key optional. -/
structure RuleTuples where
  data_type : Option MatchVal := none
  data_sender : Option MatchVal := none
  data_recipient : Option MatchVal := none
  transmission_principle : Option MatchVal := none
deriving DecidableEq, Repr

/-- The temporal_context section of a rule: each constraint key optional. -/
structure RuleTemporal where
  situation : Option String := none
  require_emergency_override : Option Bool := none
  access_window : Option RuleWindow := none
  temporal_role : Option MatchVal := none
  max_data_freshness_seconds : Option Int := none
deriving DecidableEq, Repr

/-- One declarative rule record. The temporal_context key itself may be
absent from the dictionary (this matters for the expiry assignment in the
policy engine). -/
structure Rule where
  id : Option String := none
  action : Option String := none
  tuples : RuleTuples := {}
  temporal_context : Option RuleTemporal := none
  priority : Int := 100
deriving DecidableEq, Repr

/-! ## core/evaluator.py: first-match evaluation -/

/-- match_field from core/evaluator.py: "*" and None always match, a list
matches by membership, anything else by equality. -/
def match_field (value : String) (rule_val : MatchVal) : Bool :=
  match rule_val with
  | .star => true
  | .null => true
  | .strs l => l.contains value
  | .str s => value == s

/-- in_time_window from core/evaluator.py: an absent window always passes;
each present bound is checked on its side. -/
def in_time_window (now : Int) (window : Option RuleWindow) : Bool :=
  match window with
  | none => true
  | some w =>
      if (match w.start with
          | some s => decide (now < s)
          | none => false) then false
      else if (match w.finish with
          | some e => decide (now > e)
          | none => false) then false
      else true

/-- Result dictionary of core/evaluator.py evaluate. -/
structure EvalResult where
  action : String
  matched_rule_id : Option String
  reasons : List String
deriving DecidableEq, Repr

/-- The guard chain of one loop iteration of evaluate in core/evaluator.py,
collected into a single predicate: tuple fields (absent key defaults to "*"),
then declared situation, then require_emergency_override (absent defaults to
False), then declared access window. -/
def first_match_rule_matches (request_tuple : EnhancedContextualIntegrityTuple)
    (rule : Rule) : Bool :=
  let rtu := rule.tuples
  let tconf := rule.temporal_context.getD {}
  match_field request_tuple.data_type (rtu.data_type.getD .star) &&
  match_field request_tuple.data_sender (rtu.data_sender.getD .star) &&
  match_field request_tuple.data_recipient (rtu.data_recipient.getD .star) &&
  !(opt_str_truthy tconf.situation &&
      !(request_tuple.temporal_context.situation == tconf.situation)) &&
  !(tconf.require_emergency_override.getD false &&
      !request_tuple.temporal_context.emergency_override) &&
  !(tconf.access_window.isSome &&
      !in_time_window request_tuple.temporal_context.timestamp tconf.access_window)

/-- evaluate from core/evaluator.py: rules are tried in order with continue
on any failed guard; a matched rule returns its action (dictionary default
"BLOCK") and id; exhausting the list returns the default result. -/
def evaluate (request_tuple : EnhancedContextualIntegrityTuple) :
    List Rule → EvalResult
  | [] => { action := "BLOCK", matched_rule_id := none, reasons := ["no rule matched"] }
  | rule :: rest =>
      let rtu := rule.tuples
      if !match_field request_tuple.data_type (rtu.data_type.getD .star) then
        evaluate request_tuple rest
      else if !match_field request_tuple.data_sender (rtu.data_sender.getD .star) then
        evaluate request_tuple rest
      else if !match_field request_tuple.data_recipient (rtu.data_recipient.getD .star) then
        evaluate request_tuple rest
      else
        let tconf := rule.temporal_context.getD {}
        if opt_str_truthy tconf.situation &&
            !(request_tuple.temporal_context.situation == tconf.situation) then
          evaluate request_tuple rest
        else if tconf.require_emergency_override.getD false &&
            !request_tuple.temporal_context.emergency_override then
          evaluate request_tuple rest
        else if tconf.access_window.isSome &&
            !in_time_window request_tuple.temporal_context.timestamp tconf.access_window then
          evaluate request_tuple rest
        else
          { action := rule.action.getD "BLOCK", matched_rule_id := rule.id,
            reasons := ["matched rule"] }

/-- One evaluate loop step equals a test of the collected guard predicate. -/
theorem evaluate_cons (request_tuple : EnhancedContextualIntegrityTuple)
    (rule : Rule) (rest : List Rule) :
    evaluate request_tuple (rule :: rest) =
      if first_match_rule_matches request_tuple rule then
        { action := rule.action.getD "BLOCK", matched_rule_id := rule.id,
          reasons := ["matched rule"] }
      else evaluate request_tuple rest := by
  simp only [evaluate]
  rcases Bool.eq_false_or_eq_true
      (match_field request_tuple.data_type (rule.tuples.data_type.getD .star)) with h1 | h1 <;>
  rcases Bool.eq_false_or_eq_true
      (match_field request_tuple.data_sender (rule.tuples.data_sender.getD .star)) with h2 | h2 <;>
  rcases Bool.eq_false_or_eq_true
      (match_field request_tuple.data_recipient (rule.tuples.data_recipient.getD .star)) with h3 | h3 <;>
  rcases Bool.eq_false_or_eq_true
      (opt_str_truthy (rule.temporal_context.getD {}).situation &&
        !(request_tuple.temporal_context.situation ==
          (rule.temporal_context.getD {}).situation)) with h4 | h4 <;>
  rcases Bool.eq_false_or_eq_true
      ((rule.temporal_context.getD {}).require_emergency_override.getD false &&
        !request_tuple.temporal_context.emergency_override) with h5 | h5 <;>
  rcases Bool.eq_false_or_eq_true
      ((rule.temporal_context.getD {}).access_window.isSome &&
        !in_time_window request_tuple.temporal_context.timestamp
          (rule.temporal_context.getD {}).access_window) with h6 | h6 <;>
  simp [first_match_rule_matches, h1, h2, h3, h4, h5, h6]

/-- Claim C8 (amended): in the first-match evaluator, rules are tried in list
order and the first rule passing every guard returns its declared action
(dictionary default "BLOCK"); if no rule matches — in particular for an empty
rule list — the returned default action is "BLOCK" (not "DENY"). -/
theorem evaluate_first_match_default_block
    (request_tuple : EnhancedContextualIntegrityTuple) (rules : List Rule) :
    evaluate request_tuple rules =
      match rules.find? (first_match_rule_matches request_tuple) with
      | some rule =>
          { action := rule.action.getD "BLOCK", matched_rule_id := rule.id,
            reasons := ["matched rule"] }
      | none =>
          { action := "BLOCK", matched_rule_id := none, reasons := ["no rule matched"] } := by
  induction rules with
  | nil => rfl
  | cons rule rest ih =>
      rw [evaluate_cons]
      rcases Bool.eq_false_or_eq_true (first_match_rule_matches request_tuple rule) with
        hb | hb <;> simp [List.find?_cons, hb, ih]

/-- Concrete request used by several counterexamples. -/
def ex_request : EnhancedContextualIntegrityTuple :=
  { data_type := "financial", data_subject := "s", data_sender := "x",
    data_recipient := "oncall-team", transmission_principle := "tp",
    temporal_context := { timestamp := 0 } }

/-- Claim C8 counterexample: evaluating any request against an empty rule list
returns default action "BLOCK", not "DENY" as the claim states (matching the
test test_evaluator_no_match_blocks). -/
theorem evaluate_empty_default_not_deny :
    (evaluate ex_request []).action = "BLOCK" ∧ (evaluate ex_request []).action ≠ "DENY" :=
  ⟨rfl, by decide⟩

/-! ## core/enricher.py: GraphitiContextCache (STEP 5)

The Python dict backing the cache is modeled as a function from keys to
optional entries (value, cached_at); counters are naturals. Wall-clock reads
(datetime.now) become an explicit now argument at each operation. -/

/-- Cache state of GraphitiContextCache in core/enricher.py. -/
structure GraphitiContextCache where
  ttl_seconds : Int
  entries : String × String → Option (TemporalContext × Int)
  hits : Nat
  misses : Nat
  evictions : Nat

/-- A fresh cache, as constructed by the class initializer. -/
def cache_init (ttl_seconds : Int) : GraphitiContextCache :=
  { ttl_seconds := ttl_seconds, entries := fun _ => none,
    hits := 0, misses := 0, evictions := 0 }

/-- get from GraphitiContextCache: absent key counts a miss; an entry older
than the TTL is deleted, counting an eviction and a miss; otherwise the stored
context is returned, counting a hit. -/
def cache_get (c : GraphitiContextCache) (sender_id recipient_id : String)
    (now : Int) : Option TemporalContext × GraphitiContextCache :=
  let key := (sender_id, recipient_id)
  match c.entries key with
  | none => (none, { c with misses := c.misses + 1 })
  | some (context, cached_at) =>
      let age := now - cached_at
      if age > c.ttl_seconds then
        (none, { c with entries := fun k => if k = key then none else c.entries k
                        evictions := c.evictions + 1
                        misses := c.misses + 1 })
      else
        (some context, { c with hits := c.hits + 1 })

/-- set from GraphitiContextCache: unconditionally stores (context, now)
under the key. -/
def cache_set (c : GraphitiContextCache) (sender_id recipient_id : String)
    (context : TemporalContext) (now : Int) : GraphitiContextCache :=
  let key := (sender_id, recipient_id)
  { c with entries := fun k => if k = key then some (context, now) else c.entries k }

/-- Claim C7: get on an absent key returns a miss and increments the miss
counter; set then get on the same key within the TTL returns the stored
context and counts a hit; get on an entry older than the TTL removes it,
counting both a miss and an eviction; set unconditionally overwrites. -/
theorem cache_get_set_spec (c : GraphitiContextCache) (s r : String)
    (now now2 : Int) (context : TemporalContext) :
    (c.entries (s, r) = none →
      cache_get c s r now = (none, { c with misses := c.misses + 1 })) ∧
    (now2 - now ≤ c.ttl_seconds →
      cache_get (cache_set c s r context now) s r now2 =
        (some context, { cache_set c s r context now with hits := c.hits + 1 })) ∧
    (∀ t, c.entries (s, r) = some (context, t) → c.ttl_seconds < now - t →
      (cache_get c s r now).1 = none ∧
      (cache_get c s r now).2.entries (s, r) = none ∧
      (cache_get c s r now).2.misses = c.misses + 1 ∧
      (cache_get c s r now).2.evictions = c.evictions + 1) ∧
    (cache_set c s r context now).entries (s, r) = some (context, now) := by
  refine ⟨fun h => ?_, fun h => ?_, fun t ht hage => ?_, ?_⟩
  · simp [cache_get, h]
  · simp [cache_get, cache_set, not_lt.mpr h]
  · refine ⟨?_, ?_, ?_, ?_⟩ <;> simp [cache_get, ht, hage]
  · simp [cache_set]

/-- Concrete context stored in the cache witness. -/
def ex_cached_context : TemporalContext := { timestamp := 5 }

/-- Witness for claim C7 at a concrete cache, key and times: a fresh cache
misses, a set entry is hit within TTL, an entry aged past the TTL is evicted,
and set overwrites. -/
theorem cache_get_set_spec_witness :
    (cache_get (cache_init 120) "emp-1" "emp-2" 50 =
      (none, { cache_init 120 with misses := 1 })) ∧
    (cache_get (cache_set (cache_init 120) "emp-1" "emp-2" ex_cached_context 50)
        "emp-1" "emp-2" 100 =
      (some ex_cached_context,
        { cache_set (cache_init 120) "emp-1" "emp-2" ex_cached_context 50 with hits := 1 })) ∧
    ((cache_get (cache_set (cache_init 120) "emp-1" "emp-2" ex_cached_context 50)
        "emp-1" "emp-2" 200).1 = none ∧
      (cache_get (cache_set (cache_init 120) "emp-1" "emp-2" ex_cached_context 50)
        "emp-1" "emp-2" 200).2.entries ("emp-1", "emp-2") = none ∧
      (cache_get (cache_set (cache_init 120) "emp-1" "emp-2" ex_cached_context 50)
        "emp-1" "emp-2" 200).2.misses = 1 ∧
      (cache_get (cache_set (cache_init 120) "emp-1" "emp-2" ex_cached_context 50)
        "emp-1" "emp-2" 200).2.evictions = 1) ∧
    (cache_set (cache_init 120) "emp-1" "emp-2" ex_cached_context 50).entries
        ("emp-1", "emp-2") = some (ex_cached_context, 50) := by
  refine ⟨(cache_get_set_spec (cache_init 120) "emp-1" "emp-2" 50 50
      ex_cached_context).1 rfl, ?_, ?_, ?_⟩
  · exact (cache_get_set_spec (cache_init 120) "emp-1" "emp-2" 50 100
      ex_cached_context).2.1 (by decide)
  · exact (cache_get_set_spec (cache_set (cache_init 120) "emp-1" "emp-2"
      ex_cached_context 50) "emp-1" "emp-2" 200 200 ex_cached_context).2.2.1 50
      (by simp [cache_set]) (by decide)
  · exact (cache_get_set_spec (cache_init 120) "emp-1" "emp-2" 50 50
      ex_cached_context).2.2.2

/-! ## core/enricher.py: GraphitiFailureTracker (STEP 6)

The two deques of the tracker are modeled as chronologically appended lists;
the popleft pruning loops are dropWhile on the front. Wall-clock reads become
an explicit now argument. -/

/-- Tracker state of GraphitiFailureTracker in core/enricher.py. -/
structure GraphitiFailureTracker where
  window_seconds : Int
  failure_threshold_pct : ℚ
  failure_times : List (Int × String)
  success_times : List Int
  alert_logged : Bool
deriving DecidableEq, Repr

/-- A fresh tracker, as constructed by the class initializer. -/
def tracker_init (window_seconds : Int) (failure_threshold_pct : ℚ) :
    GraphitiFailureTracker :=
  { window_seconds := window_seconds, failure_threshold_pct := failure_threshold_pct,
    failure_times := [], success_times := [], alert_logged := false }

/-- The pruning loops shared by check_alert and get_stats: popleft while the
front entry is older than the cutoff now - window_seconds. -/
def tracker_prune (t : GraphitiFailureTracker) (now : Int) : GraphitiFailureTracker :=
  let cutoff := now - t.window_seconds
  { t with failure_times := t.failure_times.dropWhile (fun p => decide (p.1 < cutoff))
           success_times := t.success_times.dropWhile (fun s => decide (s < cutoff)) }

/-- check_alert from GraphitiFailureTracker: prune, then latch the alert flag
when the in-window failure rate exceeds the threshold. -/
def check_alert (t : GraphitiFailureTracker) (now : Int) : GraphitiFailureTracker :=
  let t1 := tracker_prune t now
  let total := t1.failure_times.length + t1.success_times.length
  if total = 0 then t1
  else
    let failure_rate : ℚ := ((t1.failure_times.length : ℚ) / (total : ℚ)) * 100
    if failure_rate > t1.failure_threshold_pct ∧ t1.alert_logged = false then
      { t1 with alert_logged := true }
    else t1

/-- record_failure from GraphitiFailureTracker: append the failure, then run
the alert check (which prunes both sequences). -/
def record_failure (t : GraphitiFailureTracker) (now : Int) (error_msg : String) :
    GraphitiFailureTracker :=
  check_alert { t with failure_times := t.failure_times ++ [(now, error_msg)] } now

/-- record_success from GraphitiFailureTracker: append the success timestamp
and reset the alert latch. Note that, unlike record_failure and get_stats,
it does not prune either sequence. -/
def record_success (t : GraphitiFailureTracker) (now : Int) : GraphitiFailureTracker :=
  { t with success_times := t.success_times ++ [now]
           alert_logged := false }

/-- Statistics dictionary returned by get_stats. -/
structure TrackerStats where
  window_seconds : Int
  failures : Nat
  successes : Nat
  total : Nat
  failure_rate_pct : ℚ
  threshold_pct : ℚ
  alert_active : Bool
deriving DecidableEq, Repr

/-- get_stats from GraphitiFailureTracker: prune both sequences, then report
in-window counts and the failure rate (zero when the window is empty). -/
def get_stats (t : GraphitiFailureTracker) (now : Int) :
    TrackerStats × GraphitiFailureTracker :=
  let t1 := tracker_prune t now
  let total := t1.failure_times.length + t1.success_times.length
  let failure_rate : ℚ :=
    if total > 0 then ((t1.failure_times.length : ℚ) / (total : ℚ)) * 100 else 0
  ({ window_seconds := t.window_seconds
     failures := t1.failure_times.length
     successes := t1.success_times.length
     total := total
     failure_rate_pct := failure_rate
     threshold_pct := t.failure_threshold_pct
     alert_active := decide (failure_rate > t.failure_threshold_pct) }, t1)

/-- Tracker with one stale failure, used by the C6 counterexample. -/
def c6_tracker : GraphitiFailureTracker :=
  { window_seconds := 300, failure_threshold_pct := 5,
    failure_times := [(0, "connection timeout")], success_times := [],
    alert_logged := false }

/-- Claim C6 counterexample: record_success appends without pruning. After
record_success at time 1000 on a tracker with a 300-second window, the
failure sequence still contains the entry at time 0, which is outside the
trailing window (1000 - 300, 1000]. -/
theorem record_success_keeps_stale_failures :
    (record_success c6_tracker 1000).failure_times = [(0, "connection timeout")] ∧
    (record_success c6_tracker 1000).window_seconds = 300 ∧
    ¬(1000 - 300 < (0 : Int)) :=
  ⟨rfl, rfl, by decide⟩

/-- Every element surviving the front-pruning of a chronologically sorted
list is at or after the cutoff. -/
theorem mem_dropWhile_cutoff {α : Type} (f : α → Int) (c : Int) :
    ∀ (l : List α), l.Pairwise (fun a b => f a ≤ f b) →
      ∀ x ∈ l.dropWhile (fun a => decide (f a < c)), c ≤ f x := by
  intro l
  induction l with
  | nil => intro _ x hx; simp [List.dropWhile] at hx
  | cons a t ih =>
      intro hp x hx
      rcases List.pairwise_cons.mp hp with ⟨ha, hpt⟩
      by_cases hc : f a < c
      · rw [List.dropWhile_cons_of_pos (by simpa using hc)] at hx
        exact ih hpt x hx
      · rw [List.dropWhile_cons_of_neg (by simpa using hc)] at hx
        rcases List.mem_cons.mp hx with rfl | hxt
        · exact not_lt.mp hc
        · exact le_trans (not_lt.mp hc) (ha x hxt)

/-- Elements of a pruned list belong to the original list. -/
theorem mem_of_mem_dropWhile {α : Type} (p : α → Bool) :
    ∀ (l : List α), ∀ x ∈ l.dropWhile p, x ∈ l := by
  intro l
  induction l with
  | nil => intro x hx; simp [List.dropWhile] at hx
  | cons a t ih =>
      intro x hx
      by_cases hc : p a = true
      · rw [List.dropWhile_cons_of_pos hc] at hx
        exact List.mem_cons_of_mem a (ih x hx)
      · rw [List.dropWhile_cons_of_neg hc] at hx
        exact hx

/-- check_alert only prunes and possibly latches the alert flag: its effect
on the two sequences and the window size is that of tracker_prune. -/
theorem check_alert_times (t : GraphitiFailureTracker) (now : Int) :
    (check_alert t now).failure_times = (tracker_prune t now).failure_times ∧
    (check_alert t now).success_times = (tracker_prune t now).success_times ∧
    (check_alert t now).window_seconds = t.window_seconds := by
  simp only [check_alert]
  split_ifs <;> simp [tracker_prune]

/-- Claim C6 (amended): after every record_failure and every get_stats call
on a tracker whose sequences are chronologically ordered and bounded by now,
both sequences contain only timestamps in the closed window
[now - window_seconds, now]. (record_success merely appends and resets the
alert latch without pruning; the failure rate is still computed on pruned
sequences because check_alert and get_stats prune first.) -/
theorem tracker_window_invariant (t : GraphitiFailureTracker) (now : Int) (msg : String)
    (hfs : t.failure_times.Pairwise (fun a b => a.1 ≤ b.1))
    (hss : t.success_times.Pairwise (fun a b : Int => a ≤ b))
    (hfn : ∀ p ∈ t.failure_times, p.1 ≤ now)
    (hsn : ∀ s ∈ t.success_times, s ≤ now) :
    (∀ p ∈ (record_failure t now msg).failure_times,
        now - t.window_seconds ≤ p.1 ∧ p.1 ≤ now) ∧
    (∀ s ∈ (record_failure t now msg).success_times,
        now - t.window_seconds ≤ s ∧ s ≤ now) ∧
    (∀ p ∈ ((get_stats t now).2).failure_times,
        now - t.window_seconds ≤ p.1 ∧ p.1 ≤ now) ∧
    (∀ s ∈ ((get_stats t now).2).success_times,
        now - t.window_seconds ≤ s ∧ s ≤ now) := by
  have happ : (t.failure_times ++ [(now, msg)]).Pairwise (fun a b => a.1 ≤ b.1) := by
    rw [List.pairwise_append]
    exact ⟨hfs, List.pairwise_singleton _ _, by
      intro a hha b hb
      rcases List.mem_singleton.mp hb with rfl
      exact hfn a hha⟩
  have happn : ∀ p ∈ t.failure_times ++ [(now, msg)], p.1 ≤ now := by
    intro p hp
    rcases List.mem_append.mp hp with h | h
    · exact hfn p h
    · rcases List.mem_singleton.mp h with rfl; exact le_refl now
  refine ⟨?_, ?_, ?_, ?_⟩
  · intro p hp
    have h1 := (check_alert_times { t with
        failure_times := t.failure_times ++ [(now, msg)] } now).1
    rw [record_failure, h1, tracker_prune] at hp
    refine ⟨mem_dropWhile_cutoff _ _ _ happ p hp, happn p (mem_of_mem_dropWhile _ _ p hp)⟩
  · intro s hs
    have h2 := (check_alert_times { t with
        failure_times := t.failure_times ++ [(now, msg)] } now).2.1
    rw [record_failure, h2, tracker_prune] at hs
    refine ⟨mem_dropWhile_cutoff (fun s : Int => s) _ _ hss s hs,
      hsn s (mem_of_mem_dropWhile _ _ s hs)⟩
  · intro p hp
    rw [get_stats] at hp
    simp only [tracker_prune] at hp
    exact ⟨mem_dropWhile_cutoff _ _ _ hfs p hp, hfn p (mem_of_mem_dropWhile _ _ p hp)⟩
  · intro s hs
    rw [get_stats] at hs
    simp only [tracker_prune] at hs
    exact ⟨mem_dropWhile_cutoff (fun s : Int => s) _ _ hss s hs,
      hsn s (mem_of_mem_dropWhile _ _ s hs)⟩

/-- Witness for claim C6 (amended) on a concrete tracker: a stale failure at
time 0 and the appended failure at time 100 are pruned/kept so that, after
record_failure and get_stats at time 100 with a 300-second window, both
sequences lie inside [100 - 300, 100]. -/
theorem tracker_window_invariant_witness :
    (∀ p ∈ (record_failure c6_tracker 100 "timeout").failure_times,
        100 - c6_tracker.window_seconds ≤ p.1 ∧ p.1 ≤ 100) ∧
    (∀ s ∈ (record_failure c6_tracker 100 "timeout").success_times,
        100 - c6_tracker.window_seconds ≤ s ∧ s ≤ 100) ∧
    (∀ p ∈ ((get_stats c6_tracker 100).2).failure_times,
        100 - c6_tracker.window_seconds ≤ p.1 ∧ p.1 ≤ 100) ∧
    (∀ s ∈ ((get_stats c6_tracker 100).2).success_times,
        100 - c6_tracker.window_seconds ≤ s ∧ s ≤ 100) :=
  tracker_window_invariant c6_tracker 100 "timeout"
    (by simp [c6_tracker]) (by simp [c6_tracker])
    (by intro p hp; simp [c6_tracker] at hp; simp [hp])
    (by intro s hs; simp [c6_tracker] at hs)

/-! ## core/policy_engine.py: weighted rule matching with scoring

Scores are rationals; the Python floats involved are all exact halves and
small integers. A result of none models the no-match dictionary
(matches False, score 0.0); some s models a match with score s. -/

/-- Score contribution of one declared tuple field in _matches_tuple_fields:
the wildcard earns 0.5, a list or exact match earns 1.0, anything else
(including a declared null, which never equals a string) eliminates. -/
def tuple_field_score (actual : String) (expected : MatchVal) : Option ℚ :=
  match expected with
  | .star => some (1/2)
  | .strs l => if l.contains actual then some 1 else none
  | .str s => if actual == s then some 1 else none
  | .null => none

/-- Fold one (possibly undeclared) tuple field into the running score. -/
def tuple_field_acc (declared : Option MatchVal) (actual : String) (acc : ℚ) :
    Option ℚ :=
  match declared with
  | none => some acc
  | some expected =>
      match tuple_field_score actual expected with
      | none => none
      | some v => some (acc + v)

/-- _matches_tuple_fields from core/policy_engine.py over the four matchable
request fields, in dictionary order. -/
def matches_tuple_fields (request : EnhancedContextualIntegrityTuple)
    (rule_tuples : RuleTuples) : Option ℚ := do
  let s1 ← tuple_field_acc rule_tuples.data_type request.data_type 0
  let s2 ← tuple_field_acc rule_tuples.data_sender request.data_sender s1
  let s3 ← tuple_field_acc rule_tuples.data_recipient request.data_recipient s2
  tuple_field_acc rule_tuples.transmission_principle request.transmission_principle s3

/-- Access-window validity check of _matches_temporal_constraints: each
declared bound must not exclude now. -/
def rule_window_valid (now : Int) (w : RuleWindow) : Bool :=
  !(match w.start with
    | some s => decide (now < s)
    | none => false) &&
  !(match w.finish with
    | some e => decide (now > e)
    | none => false)

/-- Temporal-role constraint check of _matches_temporal_constraints: a list
matches by membership, the wildcard always, a string by equality with the
current role; a declared null matches exactly an absent role. -/
def temporal_role_matches (current_role : Option String) (expected_roles : MatchVal) :
    Bool :=
  match expected_roles with
  | .strs l =>
      match current_role with
      | some r => l.contains r
      | none => false
  | .star => true
  | .str s => current_role == some s
  | .null => current_role.isNone

/-- Data-freshness constraint check of _matches_temporal_constraints: an
absent freshness passes; a present one must not exceed the declared maximum. -/
def freshness_ok (freshness : Option Int) (max_age : Int) : Bool :=
  match freshness with
  | none => true
  | some f => decide (f ≤ max_age)

/-- _matches_temporal_constraints from core/policy_engine.py. The pair
accumulates (score, constraints_checked); a failed declared constraint
eliminates the rule; declaring no constraint at all yields the neutral 0.5
credit. -/
def matches_temporal_constraints (temporal_context : TemporalContext)
    (constraints : RuleTemporal) : Option ℚ := do
  let a1 : ℚ × Nat ←
    match constraints.situation with
    | none => some ((0 : ℚ), (0 : Nat))
    | some s =>
        if temporal_context.situation == some s then some (1, 1) else none
  let a2 : ℚ × Nat ←
    match constraints.require_emergency_override with
    | none => some a1
    | some required =>
        if required == temporal_context.emergency_override then
          some (a1.1 + 1, a1.2 + 1)
        else none
  let a3 : ℚ × Nat ←
    match constraints.access_window with
    | none => some a2
    | some w =>
        if rule_window_valid temporal_context.timestamp w then
          some (a2.1 + 1, a2.2 + 1)
        else none
  let a4 : ℚ × Nat ←
    match constraints.temporal_role with
    | none => some a3
    | some expected_roles =>
        if temporal_role_matches temporal_context.temporal_role expected_roles then
          some (a3.1 + 1, a3.2 + 1)
        else none
  let a5 : ℚ × Nat ←
    match constraints.max_data_freshness_seconds with
    | none => some a4
    | some max_age =>
        if freshness_ok temporal_context.data_freshness_seconds max_age then
          some (a4.1 + 1, a4.2 + 1)
        else none
  if a5.2 = 0 then some (1/2) else some a5.1

/-- _matches_temporal_rule from core/policy_engine.py: tuple score plus
temporal score, normalized by the fixed max_score of 6.0. -/
def matches_temporal_rule (request : EnhancedContextualIntegrityTuple)
    (rule : Rule) : Option ℚ :=
  let max_score : ℚ := 6
  match matches_tuple_fields request rule.tuples with
  | none => none
  | some tuple_score =>
      match matches_temporal_constraints request.temporal_context
          (rule.temporal_context.getD {}) with
      | none => none
      | some temporal_score => some ((tuple_score + temporal_score) / max_score)

/-- The best-match loop of evaluate_temporal_access: best_match starts at
None with best_score 0 and is replaced only on a strictly greater score, so
the first rule attaining the maximum wins. -/
def weighted_best_match (request : EnhancedContextualIntegrityTuple)
    (rules : List Rule) : Option Rule × ℚ :=
  rules.foldl
    (fun acc rule =>
      match matches_temporal_rule request rule with
      | some score => if score > acc.2 then (some rule, score) else acc
      | none => acc)
    (none, 0)

/-- The rule-evaluation phase of evaluate_temporal_access in isolation: the
matched rule contributes its declared action (dictionary default "DENY");
with no match the decision initialized to "DENY" stands. -/
def weighted_rule_decision (request : EnhancedContextualIntegrityTuple)
    (rules : List Rule) : String :=
  match (weighted_best_match request rules).1 with
  | some rule => rule.action.getD "DENY"
  | none => "DENY"

/-- Rule declaring every tuple field as the wildcard and no temporal
constraints, used by the C5 counterexample. -/
def c5_rule_all_star : Rule :=
  { id := some "STAR", action := some "ALLOW",
    tuples := { data_type := some .star, data_sender := some .star,
                data_recipient := some .star, transmission_principle := some .star },
    temporal_context := some {} }

/-- Claim C5 counterexample: a rule with all-wildcard tuple fields and no
temporal constraints scores (4 times 0.5 + 0.5) / 6 = 5/12, not 0.5/6 = 1/12
as the claim states. -/
theorem all_star_rule_score_not_one_twelfth :
    matches_temporal_rule ex_request c5_rule_all_star = some (5/12) ∧
    (5/12 : ℚ) ≠ 1/2 / 6 := by
  constructor
  · simp [matches_temporal_rule, c5_rule_all_star, matches_tuple_fields,
      tuple_field_acc, tuple_field_score, matches_temporal_constraints]
    norm_num
  · norm_num

/-- The rule declares exactly one tuple field, as an exact string equal to
the corresponding request field. -/
def declares_one_exact_matching_field (request : EnhancedContextualIntegrityTuple)
    (rt : RuleTuples) : Prop :=
  (∃ v, rt = { data_type := some (.str v) } ∧ request.data_type = v) ∨
  (∃ v, rt = { data_sender := some (.str v) } ∧ request.data_sender = v) ∨
  (∃ v, rt = { data_recipient := some (.str v) } ∧ request.data_recipient = v) ∨
  (∃ v, rt = { transmission_principle := some (.str v) } ∧
    request.transmission_principle = v)

/-- The rule declares exactly one temporal constraint, and that constraint
matches the context. -/
def declares_one_matched_constraint (tc : TemporalContext) (rc : RuleTemporal) : Prop :=
  (∃ s, rc = { situation := some s } ∧ tc.situation = some s) ∨
  (∃ b, rc = { require_emergency_override := some b } ∧ b = tc.emergency_override) ∨
  (∃ w, rc = { access_window := some w } ∧ rule_window_valid tc.timestamp w = true) ∨
  (∃ mv, rc = { temporal_role := some mv } ∧
    temporal_role_matches tc.temporal_role mv = true) ∨
  (∃ m, rc = { max_data_freshness_seconds := some m } ∧
    freshness_ok tc.data_freshness_seconds m = true)

/-- Claim C5 (amended): a rule declaring no tuple fields and no temporal
constraints scores 0.5/6 (each declared wildcard field would add a further
0.5); a rule with exactly one exact tuple-field match and exactly one matched
temporal constraint scores 2/6, which is strictly higher; and for every
matching rule the normalized score is the raw score divided by the constant
denominator 6, regardless of how many constraints the rule declares. -/
theorem weighted_score_characterization
    (request : EnhancedContextualIntegrityTuple) (rule0 rule1 : Rule)
    (h0t : rule0.tuples = {})
    (h0c : rule0.temporal_context.getD {} = {})
    (h1 : declares_one_exact_matching_field request rule1.tuples)
    (h2 : declares_one_matched_constraint request.temporal_context
      (rule1.temporal_context.getD {})) :
    matches_temporal_rule request rule0 = some (1/2 / 6) ∧
    matches_temporal_rule request rule1 = some (2/6) ∧
    (1/2 / 6 : ℚ) < 2/6 ∧
    (∀ (rule : Rule) (s : ℚ), matches_temporal_rule request rule = some s →
      ∃ tuple_score temporal_score,
        matches_tuple_fields request rule.tuples = some tuple_score ∧
        matches_temporal_constraints request.temporal_context
          (rule.temporal_context.getD {}) = some temporal_score ∧
        s = (tuple_score + temporal_score) / 6) := by
  refine ⟨?_, ?_, by norm_num, ?_⟩
  · simp [matches_temporal_rule, h0t, h0c, matches_tuple_fields, tuple_field_acc,
      matches_temporal_constraints]
  · have htuple : matches_tuple_fields request rule1.tuples = some 1 := by
      rcases h1 with ⟨v, hrt, hv⟩ | ⟨v, hrt, hv⟩ | ⟨v, hrt, hv⟩ | ⟨v, hrt, hv⟩ <;>
        simp [matches_tuple_fields, hrt, tuple_field_acc, tuple_field_score, hv]
    have htemp : matches_temporal_constraints request.temporal_context
        (rule1.temporal_context.getD {}) = some 1 := by
      rcases h2 with ⟨s, hrc, hv⟩ | ⟨b, hrc, hv⟩ | ⟨w, hrc, hv⟩ | ⟨mv, hrc, hv⟩ |
          ⟨m, hrc, hv⟩ <;>
        simp [matches_temporal_constraints, hrc, hv]
    simp [matches_temporal_rule, htuple, htemp]
    norm_num
  · intro rule s h
    unfold matches_temporal_rule at h
    rcases ht : matches_tuple_fields request rule.tuples with _ | tuple_score
    · rw [ht] at h; exact absurd h (by simp)
    · rcases hc : matches_temporal_constraints request.temporal_context
          (rule.temporal_context.getD {}) with _ | temporal_score
      · rw [ht, hc] at h; exact absurd h (by simp)
      · rw [ht, hc] at h
        simp only [Option.some.injEq] at h
        exact ⟨tuple_score, temporal_score, rfl, rfl, h.symm⟩

/-- Rule with no declared tuple fields and no temporal section, used by the
C5 witness. -/
def c5_rule0 : Rule := {}

/-- Rule with one exact tuple field and one matched situation constraint,
used by the C5 witness. -/
def c5_rule1 : Rule :=
  { id := some "ONE", action := some "ALLOW",
    tuples := { data_type := some (.str "financial") },
    temporal_context := some { situation := some "NORMAL" } }

/-- Witness for claim C5 (amended) at concrete rules: the empty rule scores
1/12, the one-exact-field one-matched-constraint rule scores 1/3, and the
former is strictly smaller. -/
theorem weighted_score_characterization_witness :
    matches_temporal_rule ex_request c5_rule0 = some (1/2 / 6) ∧
    matches_temporal_rule ex_request c5_rule1 = some (2/6) ∧
    (1/2 / 6 : ℚ) < 2/6 :=
  have h := weighted_score_characterization ex_request c5_rule0 c5_rule1 rfl rfl
    (Or.inl ⟨"financial", rfl, rfl⟩) (Or.inl ⟨"NORMAL", rfl, rfl⟩)
  ⟨h.1, h.2.1, h.2.2.1⟩

/-- Context with the emergency flag raised, used by the C10 divergence. -/
def c10_context : TemporalContext :=
  { timestamp := 0, emergency_override := true }

/-- Request used by the C10 divergence. -/
def c10_request : EnhancedContextualIntegrityTuple :=
  { data_type := "hr", data_subject := "s", data_sender := "a",
    data_recipient := "b", transmission_principle := "tp",
    temporal_context := c10_context }

/-- Rule declaring require_emergency_override = false, used by the C10
divergence. -/
def c10_rule : Rule :=
  { id := some "R-EMERG-FALSE", action := some "ALLOW",
    temporal_context := some { require_emergency_override := some false } }

/-- Claim C10: the weighted scorer requires a declared
require_emergency_override to equal the context flag, so declaring false
eliminates the rule whenever the flag is true; the first-match evaluator
reads the declaration with a default of False and only tests it when true,
so declaring false is the same as not declaring it; consequently, on a
concrete emergency request and a one-rule set the first-match strategy
returns ALLOW while the weighted strategy returns its default DENY. -/
theorem emergency_override_strategy_divergence :
    (∀ (tc : TemporalContext) (constraints : RuleTemporal),
      constraints.require_emergency_override = some false →
      tc.emergency_override = true →
      matches_temporal_constraints tc constraints = none) ∧
    (∀ (request : EnhancedContextualIntegrityTuple) (rule : Rule) (rc : RuleTemporal),
      rule.temporal_context = some rc →
      rc.require_emergency_override = some false →
      first_match_rule_matches request rule =
        first_match_rule_matches request
          { rule with temporal_context := some { rc with require_emergency_override := none } }) ∧
    (evaluate c10_request [c10_rule]).action = "ALLOW" ∧
    weighted_rule_decision c10_request [c10_rule] = "DENY" ∧
    "ALLOW" ≠ "DENY" := by
  refine ⟨?_, ?_, rfl, rfl, by decide⟩
  · intro tc constraints h1 h2
    rcases hsit : constraints.situation with _ | s
    · simp [matches_temporal_constraints, hsit, h1, h2]
    · by_cases hs : (tc.situation == some s) = true
      · simp [matches_temporal_constraints, hsit, h1, h2, hs]
      · simp only [Bool.not_eq_true] at hs
        simp [matches_temporal_constraints, hsit, h1, h2, hs]
  · intro request rule rc hrc hreq
    simp [first_match_rule_matches, hrc, hreq]

/-- Witness for claim C10 at the concrete emergency context and rule: the
weighted matcher eliminates the rule while the first-match guard is
unchanged by dropping the false declaration. -/
theorem emergency_override_strategy_divergence_witness :
    matches_temporal_constraints c10_context
      { require_emergency_override := some false } = none ∧
    first_match_rule_matches c10_request c10_rule =
      first_match_rule_matches c10_request
        { c10_rule with temporal_context := some { require_emergency_override := none } } :=
  ⟨emergency_override_strategy_divergence.1 c10_context
      { require_emergency_override := some false } rfl rfl,
    emergency_override_strategy_divergence.2.1 c10_request c10_rule
      { require_emergency_override := some false } rfl rfl⟩

/-! ## core/policy_engine.py: decision composer

evaluate_temporal_access is embedded with its external inputs as parameters:
the legal-hold lookup (core.holds is only declared, not part of src/core),
the loaded rule list, the oncall/incident configuration (YAML or Neo4j) and
the wall clock. The audit sink is fire-and-forget with swallowed exceptions
and does not influence the returned dictionary, so it has no counterpart
here. -/

/-- Python substring membership (pat in s). -/
def py_in_str (pat s : String) : Bool := decide (pat.toList.IsInfix s.toList)

/-- Python str.startswith, via the list-prefix relation (which evaluates on
concrete strings). -/
def py_startswith (s pre : String) : Bool := decide (pre.toList.IsPrefix s.toList)

/-- Weekday of an epoch-seconds UTC timestamp (Monday = 0), as
datetime.weekday. -/
def py_weekday (ts : Int) : Int := (ts.fdiv 86400 + 3).emod 7

/-- Hour of day of an epoch-seconds UTC timestamp. -/
def py_hour (ts : Int) : Int := (ts.emod 86400).fdiv 3600

/-- weekend_support dictionary of the oncall configuration; critical_only is
read with a default of True. -/
structure WeekendSupport where
  critical_only : Option Bool := none
deriving DecidableEq, Repr

/-- business_hours section of the oncall configuration (only the fields the
policy engine reads are modeled). -/
structure BusinessHoursCfg where
  weekend_support : WeekendSupport := {}
deriving DecidableEq, Repr

/-- global_policies section of the oncall configuration. -/
structure GlobalPolicies where
  emergency_bypass_roles : List String := []
deriving DecidableEq, Repr

/-- Oncall configuration passed to the composer. -/
structure OncallData where
  business_hours : BusinessHoursCfg := {}
  global_policies : GlobalPolicies := {}
deriving DecidableEq, Repr

/-- One incident record of the incidents configuration. -/
structure Incident where
  service : String
  status : String
deriving DecidableEq, Repr

/-- temporal_factors dictionary computed by _evaluate_temporal_context. -/
structure TemporalEval where
  business_hours : Bool
  emergency_active : Bool
  current_hour : Int
  timezone : String
  situation : Option String
  temporal_role : Option String
  data_stale : Bool
  weekend : Bool
  weekend_support : Bool
  active_incidents_count : Nat
  data_freshness_ok : Bool
deriving DecidableEq, Repr

/-- _evaluate_temporal_context from core/policy_engine.py. -/
def evaluate_temporal_context (temporal_context : TemporalContext)
    (oncall_data : OncallData) (incidents_data : List Incident) : TemporalEval :=
  let now := temporal_context.timestamp
  let is_weekend := decide (py_weekday now ≥ 5)
  let weekend_support := oncall_data.business_hours.weekend_support
  let data_stale :=
    match temporal_context.data_freshness_seconds with
    | some f => decide (f > 3600)
    | none => false
  let active_incidents :=
    (incidents_data.filter (fun inc => inc.status == "investigating")).length
  { business_hours := temporal_context.business_hours
    emergency_active := temporal_context.emergency_override
    current_hour := py_hour now
    timezone := temporal_context.timezone
    situation := temporal_context.situation
    temporal_role := temporal_context.temporal_role
    data_stale := data_stale
    weekend := is_weekend
    weekend_support := !(weekend_support.critical_only.getD true)
    active_incidents_count := active_incidents
    data_freshness_ok := !data_stale }

/-- Result dictionary of _check_service_bypass. -/
structure ServiceBypass where
  allowed : Bool
  reasons : List String
  expires_at : Option Int := none
deriving DecidableEq, Repr

/-- _check_service_bypass from core/policy_engine.py. The hasattr chain
always finds data_sender on the dataclass, so the inspected service is
always the sender. -/
def check_service_bypass (request : EnhancedContextualIntegrityTuple)
    (oncall_data : OncallData) (wall_now : Int) : ServiceBypass :=
  let bypass_roles := oncall_data.global_policies.emergency_bypass_roles
  let service := request.data_sender
  if bypass_roles.contains service then
    { allowed := true
      reasons := ["Service " ++ service ++ " has emergency bypass authorization"]
      expires_at := some (wall_now + 2 * 3600) }
  else if request.temporal_context.emergency_override &&
      opt_str_truthy request.temporal_context.temporal_role &&
      py_in_str "critical" (request.temporal_context.temporal_role.getD "") then
    { allowed := true
      reasons := ["Critical service during active incident"]
      expires_at := some (wall_now + 3600) }
  else
    { allowed := false, reasons := [] }

/-- _calculate_risk_level from core/policy_engine.py: count risk factors
(sensitive data keyword, after hours, emergency context, permissive rule
action) and bucket them. -/
def calculate_risk_level (request : EnhancedContextualIntegrityTuple)
    (rule : Rule) : String :=
  let sensitive_data := ["financial", "personal", "health", "security"]
  let f1 : Nat :=
    if sensitive_data.any (fun s => py_in_str s request.data_type.toLower) then 1 else 0
  let f2 : Nat := if !request.temporal_context.business_hours then 1 else 0
  let f3 : Nat := if request.temporal_context.emergency_override then 1 else 0
  let f4 : Nat := if rule.action == some "ALLOW" then 1 else 0
  let risk_count := f1 + f2 + f3 + f4
  if risk_count ≥ 3 then "high"
  else if risk_count ≥ 2 then "medium"
  else "low"

/-- Organizational context computed by _apply_org_context_factors. -/
structure OrgContext where
  has_manager_relationship : Bool := false
  same_department : Bool := false
  shared_projects : List String := []
  has_acting_role : Bool := false
  confidence_boost : ℚ := 0
  risk_adjustment : ℚ := 0
deriving DecidableEq, Repr

/-- Decision dictionary of evaluate_temporal_access. Keys that are only ever
added later (audit_required, confidence_boost, org_context) are optional
with none meaning the key is absent. -/
structure Decision where
  decision : String
  reasons : List String
  temporal_factors : Option TemporalEval := none
  policy_matched : Option String := none
  expires_at : Option Int := none
  next_review : Option Int := none
  confidence_score : ℚ := 0
  risk_level : String := "high"
  audit_required : Option Bool := none
  confidence_boost : Option ℚ := none
  org_context : Option OrgContext := none
deriving DecidableEq, Repr

/-- Permission table and keyword fallbacks of apply_temporal_role_permissions
in core/policy_engine.py; duplicates are removed keeping first-seen order
(dict.fromkeys). -/
def apply_temporal_role_permissions (request : EnhancedContextualIntegrityTuple) :
    List String :=
  let role := request.temporal_context.temporal_role.getD ""
  let mappings : List (String × List String) :=
    [("incident_responder",
        ["incident_investigation", "system_access_override", "log_analysis"]),
     ("security_incident_lead",
        ["security_override", "evidence_collection", "system_isolation",
         "incident_investigation"]),
     ("acting_supervisor", ["manage_team", "approve_requests"]),
     ("acting_manager",
        ["manage_team", "approve_requests", "access_management_reports"]),
     ("oncall_critical",
        ["emergency_full_hospital_access", "emergency_modify_any_record"])]
  let perms :=
    match mappings.lookup role with
    | some ps => ps
    | none =>
        (if py_in_str "incident" role || py_in_str "responder" role then
          (mappings.lookup "incident_responder").getD [] else []) ++
        (if py_in_str "security" role && py_in_str "lead" role then
          (mappings.lookup "security_incident_lead").getD [] else []) ++
        (if py_startswith role "oncall_" then ["oncall_basic_access"] else [])
  perms.foldl (fun acc x => if acc.contains x then acc else acc ++ [x]) []

/-- evaluate_temporal_access from core/policy_engine.py, with the legal-hold
lookup, the loaded rules and configuration, and the wall clock as explicit
parameters. The audit sink calls and the permission attachment of the
emergency branch do not touch the returned dictionary. -/
def evaluate_temporal_access (is_on_hold : String → String → Bool)
    (rules : List Rule) (oncall_data : OncallData) (incidents_data : List Incident)
    (wall_now : Int) (request : EnhancedContextualIntegrityTuple) : Decision :=
  let temporal_eval :=
    evaluate_temporal_context request.temporal_context oncall_data incidents_data
  let result0 : Decision :=
    { decision := "DENY", reasons := [], temporal_factors := some temporal_eval,
      confidence_score := 0, risk_level := "high" }
  -- Legal hold enforcement: highest priority deny
  let subj := request.data_subject
  let svc := request.temporal_context.service_id
  if subj != "" && is_on_hold "data_subject" subj then
    { result0 with decision := "DENY"
                   reasons := result0.reasons ++ ["Legal hold active for data subject"]
                   audit_required := some true }
  else if opt_str_truthy svc && is_on_hold "service" (svc.getD "") then
    { result0 with decision := "DENY"
                   reasons := result0.reasons ++ ["Legal hold active for service"]
                   audit_required := some true }
  -- Check emergency override first (highest priority)
  else if request.temporal_context.emergency_override then
    { result0 with decision := "ALLOW"
                   reasons := result0.reasons ++ ["Emergency override active"]
                   expires_at := some (wall_now + 4 * 3600)
                   confidence_score := 9/10
                   risk_level := "medium" }
  else
    -- Check critical service bypass
    let service_bypass := check_service_bypass request oncall_data wall_now
    if service_bypass.allowed then
      { result0 with decision := "ALLOW"
                     reasons := result0.reasons ++ service_bypass.reasons
                     expires_at := service_bypass.expires_at
                     confidence_score := 8/10
                     risk_level := "low" }
    else
      -- Evaluate against temporal rules (weighted best match)
      let best := weighted_best_match request rules
      let result1 :=
        match best.1 with
        | some best_match =>
            let base :=
              { result0 with
                  decision := best_match.action.getD "DENY"
                  policy_matched := best_match.id
                  reasons := result0.reasons ++
                    ["Matched policy: " ++ best_match.id.getD "None"]
                  confidence_score := best.2
                  risk_level := calculate_risk_level request best_match }
            match best_match.temporal_context with
            | some tcr =>
                match tcr.access_window with
                | some w =>
                    match w.finish with
                    | some e => { base with expires_at := some e }
                    | none => { base with expires_at := some (wall_now + 8 * 3600) }
                | none => { base with expires_at := some (wall_now + 8 * 3600) }
            | none => base
        | none => result0
      -- Default deny with comprehensive reasons
      let result2 :=
        if result1.decision == "DENY" then
          let r := result1.reasons ++ ["No matching temporal policy found"]
          let r := if !temporal_eval.business_hours then
            r ++ ["Outside business hours"] else r
          let r := if temporal_eval.weekend && !temporal_eval.weekend_support then
            r ++ ["Weekend access not permitted for this service"] else r
          let r := if temporal_eval.data_stale then
            r ++ ["Data freshness requirements not met"] else r
          { result1 with reasons := r }
        else result1
      -- Set next review time
      { result2 with next_review := some (wall_now + 3600) }

/-- Request with an empty data subject and the emergency flag raised, used by
the C2 counterexample. -/
def c2_request : EnhancedContextualIntegrityTuple :=
  { data_type := "hr", data_subject := "", data_sender := "svc-a",
    data_recipient := "b", transmission_principle := "tp",
    temporal_context := { timestamp := 0, emergency_override := true } }

/-- Hold lookup that reports every subject and service as held. -/
def always_on_hold : String → String → Bool := fun _ _ => true

/-- Claim C2 counterexample: the hold check is guarded by Python truthiness,
so a request whose data subject is the empty string is never checked against
the hold lookup; with emergency_override the evaluation returns ALLOW (and no
audit_required key) even though the lookup reports the subject as held. -/
theorem legal_hold_empty_subject_allows :
    always_on_hold "data_subject" c2_request.data_subject = true ∧
    c2_request.data_subject = "" ∧
    (evaluate_temporal_access always_on_hold [] {} [] 0 c2_request).decision = "ALLOW" ∧
    (evaluate_temporal_access always_on_hold [] {} [] 0 c2_request).audit_required = none :=
  ⟨rfl, rfl, rfl, rfl⟩

/-- Claim C2 (amended): for every evaluation whose non-empty data subject is
held, or whose present non-empty service id is held, the decision is DENY
with audit_required set, the reasons list carries exactly the hold reason and
nothing else, no policy is matched and no expiry is set — the hold branch is
terminal and precedes the emergency-override branch. -/
theorem legal_hold_denies (is_on_hold : String → String → Bool) (rules : List Rule)
    (oncall_data : OncallData) (incidents_data : List Incident)
    (wall_now : Int) (request : EnhancedContextualIntegrityTuple)
    (h : (request.data_subject ≠ "" ∧
          is_on_hold "data_subject" request.data_subject = true) ∨
         (opt_str_truthy request.temporal_context.service_id = true ∧
          is_on_hold "service" (request.temporal_context.service_id.getD "") = true)) :
    (evaluate_temporal_access is_on_hold rules oncall_data incidents_data
        wall_now request).decision = "DENY" ∧
    (evaluate_temporal_access is_on_hold rules oncall_data incidents_data
        wall_now request).audit_required = some true ∧
    ((evaluate_temporal_access is_on_hold rules oncall_data incidents_data
        wall_now request).reasons = ["Legal hold active for data subject"] ∨
     (evaluate_temporal_access is_on_hold rules oncall_data incidents_data
        wall_now request).reasons = ["Legal hold active for service"]) ∧
    (evaluate_temporal_access is_on_hold rules oncall_data incidents_data
        wall_now request).policy_matched = none ∧
    (evaluate_temporal_access is_on_hold rules oncall_data incidents_data
        wall_now request).expires_at = none := by
  by_cases h1 : (request.data_subject != "" &&
      is_on_hold "data_subject" request.data_subject) = true
  · simp [evaluate_temporal_access, h1]
  · rcases h with ⟨hne, hh⟩ | ⟨hsvc, hh⟩
    · exact absurd (by simp [bne_iff_ne, hne, hh]) h1
    · have h2 : (opt_str_truthy request.temporal_context.service_id &&
          is_on_hold "service" (request.temporal_context.service_id.getD "")) = true := by
        simp [hsvc, hh]
      simp [evaluate_temporal_access, h1, h2]

/-- Request with a held data subject and the emergency flag raised, used by
the C2 witness. -/
def c2w_request : EnhancedContextualIntegrityTuple :=
  { data_type := "medical", data_subject := "alice", data_sender := "x",
    data_recipient := "y", transmission_principle := "tp",
    temporal_context := { timestamp := 0, emergency_override := true } }

/-- Hold lookup holding exactly the data subject alice. -/
def c2w_hold : String → String → Bool :=
  fun kind sid => kind == "data_subject" && sid == "alice"

/-- Witness for claim C2 (amended): the held subject alice is denied with
audit required even though the context has emergency_override = true. -/
theorem legal_hold_denies_witness :
    (evaluate_temporal_access c2w_hold [] {} [] 0 c2w_request).decision = "DENY" ∧
    (evaluate_temporal_access c2w_hold [] {} [] 0 c2w_request).audit_required =
      some true ∧
    ((evaluate_temporal_access c2w_hold [] {} [] 0 c2w_request).reasons =
      ["Legal hold active for data subject"] ∨
     (evaluate_temporal_access c2w_hold [] {} [] 0 c2w_request).reasons =
      ["Legal hold active for service"]) ∧
    (evaluate_temporal_access c2w_hold [] {} [] 0 c2w_request).policy_matched = none ∧
    (evaluate_temporal_access c2w_hold [] {} [] 0 c2w_request).expires_at = none :=
  legal_hold_denies c2w_hold [] {} [] 0 c2w_request
    (Or.inl ⟨by decide, rfl⟩)

/-- Context carrying an expired access window while the role is not an
acting role, used by the C4 counterexample. -/
def c4_context : TemporalContext :=
  { timestamp := 200, emergency_override := true,
    access_window := some { start := some 0, finish := some 100 } }

/-- Request with the expired-window emergency context. -/
def c4_request : EnhancedContextualIntegrityTuple :=
  { data_type := "hr", data_subject := "s", data_sender := "a",
    data_recipient := "b", transmission_principle := "tp",
    temporal_context := c4_context }

/-- Claim C4 counterexample: evaluate_temporal_access applies no final
expiry check at all; a request whose context carries an access window ending
at 100, evaluated at time 200, is still ALLOWED by the emergency-override
branch. -/
theorem expired_window_not_overridden :
    (∃ w, c4_context.access_window = some w ∧ w.finish = some 100 ∧
      (100 : Int) < c4_context.timestamp) ∧
    (evaluate_temporal_access (fun _ _ => false) [] {} [] 200 c4_request).decision =
      "ALLOW" ∧
    "ALLOW" ≠ "DENY" :=
  ⟨⟨_, rfl, rfl, by decide⟩, rfl, by decide⟩

/-! ## core/policy_engine.py: organizational-context factors (STEP 4) -/

/-- Python int() applied to a rational: truncation toward zero. -/
def py_trunc (q : ℚ) : Int := q.num.tdiv q.den

/-- The risk_value dictionary lookup with default 2. -/
def risk_value_of (risk : String) : Int :=
  if risk == "low" then 1
  else if risk == "medium" then 2
  else if risk == "high" then 3
  else if risk == "critical" then 4
  else 2

/-- The risk_map lookup over the clamped 1..4 scale. -/
def risk_name_of (v : Int) : String :=
  if v == 1 then "low"
  else if v == 2 then "medium"
  else if v == 3 then "high"
  else "critical"

/-- Factor 1 of _apply_org_context_factors: manager relationship. -/
def org_factor_manager (decision : Decision) (org_context : OrgContext)
    (temporal_context : TemporalContext) : Decision × OrgContext :=
  if temporal_context.temporal_role == some "manager" then
    ({ decision with reasons := decision.reasons ++
        ["Manager access to subordinate data (lower risk)"] },
     { org_context with has_manager_relationship := true
                        confidence_boost := org_context.confidence_boost + 15/100
                        risk_adjustment := org_context.risk_adjustment - 2/10 })
  else (decision, org_context)

/-- Factor 2 of _apply_org_context_factors: shared department, detected from
a truthy data_domain attribute. -/
def org_factor_department (decision : Decision) (org_context : OrgContext)
    (temporal_context : TemporalContext) : Decision × OrgContext :=
  if opt_str_truthy temporal_context.data_domain then
    ({ decision with reasons := decision.reasons ++
        ["Same department access: " ++ temporal_context.data_domain.getD "" ++
          " (lower risk)"] },
     { org_context with same_department := true
                        confidence_boost := org_context.confidence_boost + 10/100
                        risk_adjustment := org_context.risk_adjustment - 15/100 })
  else (decision, org_context)

/-- Factor 3 of _apply_org_context_factors: shared project, detected from an
event correlation of the form proj_. -/
def org_factor_projects (decision : Decision) (org_context : OrgContext)
    (temporal_context : TemporalContext) : Decision × OrgContext :=
  if opt_str_truthy temporal_context.event_correlation &&
      py_startswith (temporal_context.event_correlation.getD "") "proj_" then
    let project_id := (temporal_context.event_correlation.getD "").replace "proj_" ""
    ({ decision with reasons := decision.reasons ++
        ["Shared project access: " ++ project_id ++ " (lower risk)"] },
     { org_context with shared_projects := org_context.shared_projects ++ [project_id]
                        confidence_boost := org_context.confidence_boost + 8/100
                        risk_adjustment := org_context.risk_adjustment - 1/10 })
  else (decision, org_context)

/-- Factor 4 of _apply_org_context_factors: acting roles. An expired window
forces DENY; an active one records the expiry and writes 0.12 into the
confidence_boost key of the decision dictionary (not into the organizational
boost that is later added to the confidence score). -/
def org_factor_acting (decision : Decision) (org_context : OrgContext)
    (temporal_context : TemporalContext) (timestamp : Int) : Decision × OrgContext :=
  if opt_str_truthy temporal_context.temporal_role &&
      py_startswith (temporal_context.temporal_role.getD "") "acting_" then
    let org_context := { org_context with has_acting_role := true }
    match temporal_context.access_window with
    | some w =>
        match w.finish with
        | some access_end =>
            if access_end < timestamp then
              ({ decision with decision := "DENY"
                               reasons := decision.reasons ++
                                 ["Acting role expired at " ++ toString access_end]
                               risk_level := "high" }, org_context)
            else
              ({ decision with expires_at := some access_end
                               confidence_boost := some (12/100)
                               reasons := decision.reasons ++
                                 ["Temporary acting role: " ++
                                   temporal_context.temporal_role.getD "" ++
                                   " expires " ++ toString access_end] }, org_context)
        | none =>
            ({ decision with expires_at := none
                             confidence_boost := some (12/100)
                             reasons := decision.reasons ++
                               ["Temporary acting role: " ++
                                 temporal_context.temporal_role.getD "" ++
                                 " expires never"] }, org_context)
    | none => (decision, org_context)
  else (decision, org_context)

/-- The closing confidence and risk adjustments of _apply_org_context_factors. -/
def org_apply_adjustments (decision : Decision) (org_context : OrgContext) : Decision :=
  let current_confidence := decision.confidence_score
  let current_risk := decision.risk_level
  let new_confidence := min 1 (current_confidence + org_context.confidence_boost)
  let risk_value := risk_value_of current_risk
  let adjusted_risk := max 1 (min 4 (risk_value + py_trunc (org_context.risk_adjustment * 2)))
  { decision with confidence_score := new_confidence
                  risk_level := risk_name_of adjusted_risk }

/-- _apply_org_context_factors from core/policy_engine.py: the four factors
in order, then the adjustments; the organizational context is returned
alongside (the caller stores it under the org_context key). The
resource_attrs parameter of the Python signature is never read and is
omitted. -/
def apply_org_context_factors (decision : Decision)
    (temporal_context : TemporalContext) (timestamp : Int) : Decision × OrgContext :=
  let s1 := org_factor_manager decision {} temporal_context
  let s2 := org_factor_department s1.1 s1.2 temporal_context
  let s3 := org_factor_projects s2.1 s2.2 temporal_context
  let s4 := org_factor_acting s3.1 s3.2 temporal_context timestamp
  (org_apply_adjustments s4.1 s4.2, s4.2)

/-- Factor 1 leaves the confidence score unchanged and adds its boost
exactly when the role is manager. -/
theorem org_factor_manager_fields (d : Decision) (oc : OrgContext)
    (ctx : TemporalContext) :
    (org_factor_manager d oc ctx).2.confidence_boost =
      oc.confidence_boost +
        (if ctx.temporal_role == some "manager" then (15 : ℚ)/100 else 0) ∧
    (org_factor_manager d oc ctx).1.confidence_score = d.confidence_score ∧
    (org_factor_manager d oc ctx).1.decision = d.decision := by
  unfold org_factor_manager
  split_ifs <;> simp

/-- Factor 2 leaves the confidence score unchanged and adds its boost
exactly when a department domain is attached. -/
theorem org_factor_department_fields (d : Decision) (oc : OrgContext)
    (ctx : TemporalContext) :
    (org_factor_department d oc ctx).2.confidence_boost =
      oc.confidence_boost +
        (if opt_str_truthy ctx.data_domain then (10 : ℚ)/100 else 0) ∧
    (org_factor_department d oc ctx).1.confidence_score = d.confidence_score ∧
    (org_factor_department d oc ctx).1.decision = d.decision := by
  unfold org_factor_department
  split_ifs <;> simp

/-- Factor 3 leaves the confidence score unchanged and adds its boost
exactly when a proj_ event correlation is attached. -/
theorem org_factor_projects_fields (d : Decision) (oc : OrgContext)
    (ctx : TemporalContext) :
    (org_factor_projects d oc ctx).2.confidence_boost =
      oc.confidence_boost +
        (if opt_str_truthy ctx.event_correlation &&
            py_startswith (ctx.event_correlation.getD "") "proj_" then (8 : ℚ)/100
          else 0) ∧
    (org_factor_projects d oc ctx).1.confidence_score = d.confidence_score ∧
    (org_factor_projects d oc ctx).1.decision = d.decision := by
  unfold org_factor_projects
  split_ifs <;> simp

/-- Factor 4 never changes the organizational confidence boost or the
confidence score: the 0.12 of an active acting role goes into the decision
dictionary key confidence_boost instead. -/
theorem org_factor_acting_fields (d : Decision) (oc : OrgContext)
    (ctx : TemporalContext) (ts : Int) :
    (org_factor_acting d oc ctx ts).2.confidence_boost = oc.confidence_boost ∧
    (org_factor_acting d oc ctx ts).1.confidence_score = d.confidence_score := by
  unfold org_factor_acting
  split_ifs with hc
  · rcases hw : ctx.access_window with _ | w
    · simp [hw]
    · rcases he : w.finish with _ | e
      · simp [hw, he]
      · by_cases hlt : e < ts <;> simp [hw, he, hlt]
  · simp

/-- The risk_map image is always one of the four scale names. -/
theorem risk_name_of_mem (v : Int) :
    risk_name_of v = "low" ∨ risk_name_of v = "medium" ∨
    risk_name_of v = "high" ∨ risk_name_of v = "critical" := by
  unfold risk_name_of
  split_ifs <;> simp

/-- Core of the acting-role expiry override: an expired end bound on the
access window of an acting role forces the decision to DENY, and the closing
adjustments do not undo it. -/
theorem org_expiry_deny_core (decision : Decision)
    (ctx : TemporalContext) (ts : Int) (w : TimeWindow) (e : Int)
    (hrole : opt_str_truthy ctx.temporal_role = true)
    (hacting : py_startswith (ctx.temporal_role.getD "") "acting_" = true)
    (hw : ctx.access_window = some w)
    (he : w.finish = some e)
    (hlt : e < ts) :
    (apply_org_context_factors decision ctx ts).1.decision = "DENY" := by
  have hd : (org_factor_acting (org_factor_projects
      (org_factor_department (org_factor_manager decision {} ctx).1
        (org_factor_manager decision {} ctx).2 ctx).1
      (org_factor_department (org_factor_manager decision {} ctx).1
        (org_factor_manager decision {} ctx).2 ctx).2 ctx).1
      (org_factor_projects
        (org_factor_department (org_factor_manager decision {} ctx).1
          (org_factor_manager decision {} ctx).2 ctx).1
        (org_factor_department (org_factor_manager decision {} ctx).1
          (org_factor_manager decision {} ctx).2 ctx).2 ctx).2 ctx ts).1.decision =
      "DENY" := by
    unfold org_factor_acting
    simp [hrole, hacting, hw, he, hlt]
  simp only [apply_org_context_factors, org_apply_adjustments]
  exact hd

/-- Decision used by the C4 witness and the C9 counterexample. -/
def c9_decision : Decision :=
  { decision := "ALLOW", reasons := [], confidence_score := 1/2,
    risk_level := "medium" }

/-- Context with an active (unexpired) acting role, used by the C9
counterexample. -/
def c9_context : TemporalContext :=
  { timestamp := 0, temporal_role := some "acting_manager",
    access_window := some { start := some 0, finish := some 500 } }

/-- Claim C9 counterexample: with an active acting role the claim demands a
confidence of 0.5 + 0.12; the code instead leaves the confidence score at
0.5 and writes 0.12 into the separate confidence_boost key of the decision
dictionary, which nothing ever adds to the score. -/
theorem acting_role_boost_not_applied :
    (apply_org_context_factors c9_decision c9_context 400).2.has_acting_role = true ∧
    (apply_org_context_factors c9_decision c9_context 400).1.confidence_score = 1/2 ∧
    ((1 : ℚ)/2 ≠ 1/2 + 12/100) ∧
    (apply_org_context_factors c9_decision c9_context 400).1.confidence_boost =
      some (12/100) := by
  have hsw : py_startswith "acting_manager" "acting_" = true := by decide
  refine ⟨?_, ?_, by norm_num, ?_⟩ <;>
    · simp [apply_org_context_factors, org_factor_manager, org_factor_department,
        org_factor_projects, org_factor_acting, org_apply_adjustments,
        c9_decision, c9_context, opt_str_truthy, hsw]
      try norm_num

/-- Claim C9 (amended): the organizational confidence boost is exactly
+0.15 for a manager relationship, +0.10 for an attached department domain
and +0.08 for a shared proj_ correlation — the +0.12 of an active acting
role is not part of it (it is recorded under the separate confidence_boost
key); the resulting confidence is min(1, previous + boost), hence capped at
1; and the adjusted risk level always lies on the four-name ordinal scale. -/
theorem org_factors_confidence_adjustment (d : Decision)
    (ctx : TemporalContext) (ts : Int) :
    ((apply_org_context_factors d ctx ts).2.confidence_boost =
      (if ctx.temporal_role == some "manager" then (15 : ℚ)/100 else 0) +
      (if opt_str_truthy ctx.data_domain then (10 : ℚ)/100 else 0) +
      (if opt_str_truthy ctx.event_correlation &&
          py_startswith (ctx.event_correlation.getD "") "proj_" then (8 : ℚ)/100
        else 0)) ∧
    ((apply_org_context_factors d ctx ts).1.confidence_score =
      min 1 (d.confidence_score + (apply_org_context_factors d ctx ts).2.confidence_boost)) ∧
    ((apply_org_context_factors d ctx ts).1.confidence_score ≤ 1) ∧
    ((apply_org_context_factors d ctx ts).1.risk_level = "low" ∨
      (apply_org_context_factors d ctx ts).1.risk_level = "medium" ∨
      (apply_org_context_factors d ctx ts).1.risk_level = "high" ∨
      (apply_org_context_factors d ctx ts).1.risk_level = "critical") := by
  have h1 := org_factor_manager_fields d {} ctx
  have h2 := org_factor_department_fields (org_factor_manager d {} ctx).1
    (org_factor_manager d {} ctx).2 ctx
  have h3 := org_factor_projects_fields
    (org_factor_department (org_factor_manager d {} ctx).1
      (org_factor_manager d {} ctx).2 ctx).1
    (org_factor_department (org_factor_manager d {} ctx).1
      (org_factor_manager d {} ctx).2 ctx).2 ctx
  have h4 := org_factor_acting_fields
    (org_factor_projects
      (org_factor_department (org_factor_manager d {} ctx).1
        (org_factor_manager d {} ctx).2 ctx).1
      (org_factor_department (org_factor_manager d {} ctx).1
        (org_factor_manager d {} ctx).2 ctx).2 ctx).1
    (org_factor_projects
      (org_factor_department (org_factor_manager d {} ctx).1
        (org_factor_manager d {} ctx).2 ctx).1
      (org_factor_department (org_factor_manager d {} ctx).1
        (org_factor_manager d {} ctx).2 ctx).2 ctx).2 ctx ts
  have hboost : (apply_org_context_factors d ctx ts).2.confidence_boost =
      (if ctx.temporal_role == some "manager" then (15 : ℚ)/100 else 0) +
      (if opt_str_truthy ctx.data_domain then (10 : ℚ)/100 else 0) +
      (if opt_str_truthy ctx.event_correlation &&
          py_startswith (ctx.event_correlation.getD "") "proj_" then (8 : ℚ)/100
        else 0) := by
    simp only [apply_org_context_factors]
    rw [h4.1, h3.1, h2.1, h1.1]
    simp
  refine ⟨hboost, ?_, ?_, ?_⟩
  · simp only [apply_org_context_factors, org_apply_adjustments]
    rw [h4.2, h3.2.1, h2.2.1, h1.2.1]
  · simp only [apply_org_context_factors, org_apply_adjustments]
    exact min_le_left _ _
  · simp only [apply_org_context_factors, org_apply_adjustments]
    exact risk_name_of_mem _

/-! ## core/enricher.py: build_temporal_context_from_graphiti (STEP 3/5/6)

The four Graphiti queries are parameters: some response models a call that
returned, none a call whose exception was caught in the corresponding try
block (each recording one tracker failure). The wall clock (used by the
cache and tracker) and the enrichment timestamp (used for role activity) are
separate arguments, as in the code. The Team B HTTP branch is disabled in
the default configuration (GRAPHITI_MODE unset) and is not modeled. -/

/-- Reporting-relationship response (the enricher reads is_direct_report). -/
structure RelationshipReportingResponse where
  is_direct_report : Bool
deriving DecidableEq, Repr

/-- Department-relationship response (the enricher reads same_department). -/
structure RelationshipDepartmentResponse where
  same_department : Bool
deriving DecidableEq, Repr

/-- Shared-projects response (the enricher reads projects_ids). -/
structure RelationshipProjectsResponse where
  projects_ids : List String
deriving DecidableEq, Repr

/-- TemporalRole from core/graphiti_config.py: start_date and end_date are
required fields there, so the enricher condition that guards the access
window (start and end both truthy) always holds for a selected role. -/
structure TemporalRole where
  role_name : String
  start_date : Int
  end_date : Int
deriving DecidableEq, Repr

/-- is_active_at from core/graphiti_config.py: start inclusive, end
exclusive. -/
def TemporalRole.is_active_at (role : TemporalRole) (ts : Int) : Bool :=
  decide (role.start_date ≤ ts) && decide (ts < role.end_date)

/-- Temporal-roles response (the enricher reads temporary_roles). -/
structure RolesTemporalResponse where
  temporary_roles : List TemporalRole
deriving DecidableEq, Repr

/-- _create_minimal_temporal_context from core/enricher.py (STEP 6). The
source calls the TemporalContext constructor with the keywords timestamp,
timezone="UTC", temporal_role="user", situation="AUDIT" and
data_domain="unknown" — but data_domain is not a field of the TemporalContext
dataclass (it only ever exists as a dynamically attached attribute), and a
dataclass constructor rejects unknown keywords. The call therefore raises
TypeError before any record is built, instead of returning the intended
minimal fallback context. -/
def create_minimal_temporal_context (timestamp : Int) : Except String TemporalContext :=
  let _ := timestamp
  .error "TypeError: TemporalContext.__init__ got an unexpected keyword argument data_domain"

/-- Access window attached for an active acting role in the enricher. -/
def acting_access_window (role : TemporalRole) : TimeWindow :=
  { start := some role.start_date
    finish := some role.end_date
    window_type := "emergency"
    description := some ("Acting role: " ++ role.role_name) }

/-- build_temporal_context_from_graphiti from core/enricher.py: cache lookup
first (a hit records a tracker success and returns the cached context
unchanged); otherwise derive fields from whichever queries succeeded,
recording one tracker failure per failed query; if all four failed the code
reaches the minimal-fallback constructor, whose TypeError propagates (the
error component carries it; cache and tracker keep the state already
mutated, and nothing is cached); else record one success and cache the
built context. -/
def build_temporal_context_from_graphiti
    (cache : GraphitiContextCache) (tracker : GraphitiFailureTracker)
    (wall_now : Int) (sender_id recipient_id : String) (timestamp : Int)
    (q_reporting : Option RelationshipReportingResponse)
    (q_department : Option RelationshipDepartmentResponse)
    (q_projects : Option RelationshipProjectsResponse)
    (q_roles : Option RolesTemporalResponse) :
    Except String TemporalContext × GraphitiContextCache × GraphitiFailureTracker :=
  let g := cache_get cache sender_id recipient_id wall_now
  match g.1 with
  | some cached_context => (.ok cached_context, g.2, record_success tracker wall_now)
  | none =>
    let tc0 : TemporalContext :=
      { timestamp := timestamp, timezone := "UTC",
        temporal_role := some "user", situation := some "NORMAL" }
    -- 1. Query reporting relationship
    let tc1 :=
      match q_reporting with
      | some reporting =>
          if reporting.is_direct_report then
            { tc0 with temporal_role := some "manager" } else tc0
      | none => tc0
    let tracker1 :=
      match q_reporting with
      | some _ => tracker
      | none => record_failure tracker wall_now "Failed to get reporting relationship"
    let failures1 : Nat :=
      match q_reporting with
      | some _ => 0
      | none => 1
    -- 2. Query department relationship
    let tc2 :=
      match q_department with
      | some dept_response =>
          if dept_response.same_department then
            { tc1 with data_domain := some ("dept_" ++ (sender_id.splitOn "-").headD "") }
          else tc1
      | none => tc1
    let tracker2 :=
      match q_department with
      | some _ => tracker1
      | none => record_failure tracker1 wall_now "Failed to get department relationship"
    let failures2 :=
      match q_department with
      | some _ => failures1
      | none => failures1 + 1
    -- 3. Query shared projects
    let tc3 :=
      match q_projects with
      | some projects_response =>
          match projects_response.projects_ids with
          | [] => tc2
          | p :: _ => { tc2 with event_correlation := some ("proj_" ++ p) }
      | none => tc2
    let tracker3 :=
      match q_projects with
      | some _ => tracker2
      | none => record_failure tracker2 wall_now "Failed to get shared projects"
    let failures3 :=
      match q_projects with
      | some _ => failures2
      | none => failures2 + 1
    -- 4. Query temporal/acting roles (first active role wins)
    let tc4 :=
      match q_roles with
      | some roles_response =>
          match roles_response.temporary_roles.find?
              (fun role : TemporalRole => role.is_active_at timestamp) with
          | some role =>
              { tc3 with
                  temporal_role := some ("acting_" ++ (role.role_name.toLower.replace " " "_"))
                  access_window := some (acting_access_window role) }
          | none => tc3
      | none => tc3
    let tracker4 :=
      match q_roles with
      | some _ => tracker3
      | none => record_failure tracker3 wall_now "Failed to get temporal roles"
    let failures4 :=
      match q_roles with
      | some _ => failures3
      | none => failures3 + 1
    -- STEP 6: all four failed -> the fallback constructor raises, skip caching
    if failures4 ≥ 4 then
      (create_minimal_temporal_context timestamp, g.2, tracker4)
    else
      (.ok tc4, cache_set g.2 sender_id recipient_id tc4 wall_now,
       record_success tracker4 wall_now)

/-- A cache miss leaves no entry under the key (either the key was absent or
the expired entry was just deleted). -/
theorem cache_get_miss_entries (c : GraphitiContextCache) (s r : String) (now : Int)
    (h : (cache_get c s r now).1 = none) :
    (cache_get c s r now).2.entries (s, r) = none := by
  simp only [cache_get] at h ⊢
  rcases hentry : c.entries (s, r) with _ | ⟨ctx, cached_at⟩
  · simp [hentry]
  · by_cases hage : now - cached_at > c.ttl_seconds
    · simp [hage]
    · simp [hentry, hage] at h

/-- A cache hit makes the builder return the cached context unchanged. -/
theorem build_cache_hit (cache : GraphitiContextCache)
    (tracker : GraphitiFailureTracker) (wall_now : Int)
    (sender_id recipient_id : String) (timestamp : Int)
    (q1 : Option RelationshipReportingResponse)
    (q2 : Option RelationshipDepartmentResponse)
    (q3 : Option RelationshipProjectsResponse)
    (q4 : Option RolesTemporalResponse)
    (cctx : TemporalContext)
    (h : (cache_get cache sender_id recipient_id wall_now).1 = some cctx) :
    (build_temporal_context_from_graphiti cache tracker wall_now sender_id
      recipient_id timestamp q1 q2 q3 q4).1 = Except.ok cctx := by
  simp only [build_temporal_context_from_graphiti]
  rw [h]

/-- Claim C3 (evidence of the code bug): with a cache miss and all four
organizational-relationship queries failing, build_temporal_context_from_graphiti
does not return the minimal fallback context: _create_minimal_temporal_context
passes data_domain as a constructor keyword to the TemporalContext dataclass,
which has no such field, so the call raises TypeError, and the builder
returns nothing on this path. The cache still holds no entry for the
(sender, recipient) key afterwards (the miss already removed any expired
entry, and the error path caches nothing), and the tracker has recorded the
four query failures before the raise. -/
theorem all_queries_failed_typeerror_not_cached
    (cache : GraphitiContextCache) (tracker : GraphitiFailureTracker)
    (wall_now : Int) (sender_id recipient_id : String) (timestamp : Int)
    (hmiss : (cache_get cache sender_id recipient_id wall_now).1 = none) :
    (build_temporal_context_from_graphiti cache tracker wall_now sender_id
      recipient_id timestamp none none none none).1 =
      Except.error
        "TypeError: TemporalContext.__init__ got an unexpected keyword argument data_domain" ∧
    (build_temporal_context_from_graphiti cache tracker wall_now sender_id
      recipient_id timestamp none none none
      none).2.1.entries (sender_id, recipient_id) = none ∧
    (build_temporal_context_from_graphiti cache tracker wall_now sender_id
      recipient_id timestamp none none none none).2.2 =
      record_failure (record_failure (record_failure (record_failure tracker
        wall_now "Failed to get reporting relationship")
        wall_now "Failed to get department relationship")
        wall_now "Failed to get shared projects")
        wall_now "Failed to get temporal roles" := by
  have hbuild : build_temporal_context_from_graphiti cache tracker wall_now
      sender_id recipient_id timestamp none none none none =
      (create_minimal_temporal_context timestamp,
        (cache_get cache sender_id recipient_id wall_now).2,
        record_failure (record_failure (record_failure (record_failure tracker
          wall_now "Failed to get reporting relationship")
          wall_now "Failed to get department relationship")
          wall_now "Failed to get shared projects")
          wall_now "Failed to get temporal roles") := by
    have heq : cache_get cache sender_id recipient_id wall_now =
        (none, (cache_get cache sender_id recipient_id wall_now).2) :=
      Prod.ext_iff.mpr ⟨hmiss, rfl⟩
    unfold build_temporal_context_from_graphiti
    rw [heq]
    rfl
  rw [hbuild]
  refine ⟨rfl, cache_get_miss_entries _ _ _ _ hmiss, ?_⟩
  with_reducible rfl

/-- Witness for claim C3: empty cache, fresh tracker, all four queries
failing — the TypeError propagates and the key stays uncached. -/
theorem all_queries_failed_typeerror_not_cached_witness :
    (build_temporal_context_from_graphiti (cache_init 120) (tracker_init 300 5)
      0 "emp-1" "emp-2" 42 none none none none).1 =
      Except.error
        "TypeError: TemporalContext.__init__ got an unexpected keyword argument data_domain" ∧
    (build_temporal_context_from_graphiti (cache_init 120) (tracker_init 300 5)
      0 "emp-1" "emp-2" 42 none none none none).2.1.entries ("emp-1", "emp-2") =
      none ∧
    (build_temporal_context_from_graphiti (cache_init 120) (tracker_init 300 5)
      0 "emp-1" "emp-2" 42 none none none none).2.2 =
      record_failure (record_failure (record_failure (record_failure
        (tracker_init 300 5) 0 "Failed to get reporting relationship")
        0 "Failed to get department relationship")
        0 "Failed to get shared projects")
        0 "Failed to get temporal roles" :=
  all_queries_failed_typeerror_not_cached (cache_init 120) (tracker_init 300 5)
    0 "emp-1" "emp-2" 42 rfl

/-- evaluate_with_graphiti_context from core/policy_engine.py (STEP 4):
enrich from Graphiti, build the 6-tuple (the recipient of the request is the
subject employee, the sender the engine itself), evaluate, then apply the
organizational factors and attach the organizational context. The builder
call is not wrapped in a try block, so a TypeError raised on its
all-queries-failed path propagates out of this method too (the error
component). -/
def evaluate_with_graphiti_context
    (is_on_hold : String → String → Bool) (rules : List Rule)
    (oncall_data : OncallData) (incidents_data : List Incident)
    (cache : GraphitiContextCache) (tracker : GraphitiFailureTracker)
    (wall_now : Int) (subject_id recipient_id : String) (data_type : String)
    (timestamp : Int)
    (q_reporting : Option RelationshipReportingResponse)
    (q_department : Option RelationshipDepartmentResponse)
    (q_projects : Option RelationshipProjectsResponse)
    (q_roles : Option RolesTemporalResponse) :
    Except String Decision × GraphitiContextCache × GraphitiFailureTracker :=
  let b := build_temporal_context_from_graphiti cache tracker wall_now subject_id
    recipient_id timestamp q_reporting q_department q_projects q_roles
  match b.1 with
  | .error e => (.error e, b.2)
  | .ok temporal_context =>
    let tuple_obj : EnhancedContextualIntegrityTuple :=
      { data_type := data_type, data_subject := recipient_id,
        data_sender := "temporal_engine", data_recipient := subject_id,
        transmission_principle := "need_to_know",
        temporal_context := temporal_context }
    let decision := evaluate_temporal_access is_on_hold rules oncall_data
      incidents_data wall_now tuple_obj
    let applied := apply_org_context_factors decision temporal_context timestamp
    (.ok { applied.1 with org_context := some applied.2 }, b.2)

/-- Claim C4 (amended): the final expiry override lives in
_apply_org_context_factors (applied only on the Graphiti-context evaluation
path) and fires only when the temporal role starts with acting_ and the
access window has an expired end bound; then the decision is forced to DENY
no matter what was decided before, both on the factor step itself and
through the whole evaluate_with_graphiti_context pipeline when the enriched
context (here a cached one) carries such a role and window. -/
theorem acting_role_expiry_forces_deny :
    (∀ (decision : Decision) (ctx : TemporalContext) (ts : Int)
        (w : TimeWindow) (e : Int),
      opt_str_truthy ctx.temporal_role = true →
      py_startswith (ctx.temporal_role.getD "") "acting_" = true →
      ctx.access_window = some w → w.finish = some e → e < ts →
      (apply_org_context_factors decision ctx ts).1.decision = "DENY") ∧
    (∀ (is_on_hold : String → String → Bool) (rules : List Rule)
        (oncall_data : OncallData) (incidents_data : List Incident)
        (cache : GraphitiContextCache) (tracker : GraphitiFailureTracker)
        (wall_now : Int) (subject_id recipient_id data_type : String)
        (timestamp : Int)
        (q1 : Option RelationshipReportingResponse)
        (q2 : Option RelationshipDepartmentResponse)
        (q3 : Option RelationshipProjectsResponse)
        (q4 : Option RolesTemporalResponse)
        (cctx : TemporalContext) (w : TimeWindow) (e : Int),
      (cache_get cache subject_id recipient_id wall_now).1 = some cctx →
      opt_str_truthy cctx.temporal_role = true →
      py_startswith (cctx.temporal_role.getD "") "acting_" = true →
      cctx.access_window = some w → w.finish = some e → e < timestamp →
      ∃ d, (evaluate_with_graphiti_context is_on_hold rules oncall_data
        incidents_data cache tracker wall_now subject_id recipient_id data_type
        timestamp q1 q2 q3 q4).1 = Except.ok d ∧ d.decision = "DENY") := by
  refine ⟨fun decision ctx ts w e h1 h2 h3 h4 h5 =>
    org_expiry_deny_core decision ctx ts w e h1 h2 h3 h4 h5, ?_⟩
  intro is_on_hold rules oncall_data incidents_data cache tracker wall_now
    subject_id recipient_id data_type timestamp q1 q2 q3 q4 cctx w e
    hhit h1 h2 h3 h4 h5
  have hb := build_cache_hit cache tracker wall_now subject_id recipient_id
    timestamp q1 q2 q3 q4 cctx hhit
  simp only [evaluate_with_graphiti_context]
  rw [hb]
  exact ⟨_, rfl, org_expiry_deny_core _ cctx timestamp w e h1 h2 h3 h4 h5⟩

/-- Cached context with an expired acting-role window, used by the C4
witness. -/
def c4w_cached_context : TemporalContext :=
  { timestamp := 0, temporal_role := some "acting_manager",
    access_window := some { start := some 0, finish := some 100 } }

/-- Witness for claim C4 (amended): an acting role whose window ended at 100
is evaluated at 200 and the earlier ALLOW becomes DENY, both on the factor
step alone and through the full pipeline with that context cached. -/
theorem acting_role_expiry_forces_deny_witness :
    (apply_org_context_factors c9_decision c4w_cached_context 200).1.decision =
      "DENY" ∧
    (∃ d, (evaluate_with_graphiti_context (fun _ _ => false) [] {} []
      (cache_set (cache_init 120) "emp-1" "emp-2" c4w_cached_context 0)
      (tracker_init 300 5) 0 "emp-1" "emp-2" "payroll" 200
      none none none none).1 = Except.ok d ∧ d.decision = "DENY") :=
  ⟨acting_role_expiry_forces_deny.1 c9_decision c4w_cached_context 200
      { start := some 0, finish := some 100 } 100
      (by decide) (by decide) rfl rfl (by decide),
    acting_role_expiry_forces_deny.2 (fun _ _ => false) [] {} []
      (cache_set (cache_init 120) "emp-1" "emp-2" c4w_cached_context 0)
      (tracker_init 300 5) 0 "emp-1" "emp-2" "payroll" 200
      none none none none c4w_cached_context
      { start := some 0, finish := some 100 } 100
      (by simp [cache_get, cache_set, cache_init])
      (by decide) (by decide) rfl rfl (by decide)⟩

/-- Claim C1 (evidence of the code bug): the TemporalContext dataclass in
core/tuples.py performs no validation, so constructing it with
emergency_override = true and no authorization id succeeds and yields a
context with the flag set — where the claim, the spec and the repository's
own test test_emergency_authorization.py demand an immediate ValidationError.
The class has no emergency_authorization_id field at all (the structure
embedded here mirrors its dataclass fields), so the second half of the test,
which passes emergency_authorization_id as a keyword, raises a TypeError
instead of succeeding. -/
theorem construct_emergency_without_auth_succeeds :
    (TemporalContext.construct true 0).emergency_override = true ∧
    TemporalContext.construct true 0 = { timestamp := 0, emergency_override := true } :=
  ⟨rfl, rfl⟩

end TemporalFramework
